import Mathlib

/-!
Shallow embedding of the authentication core of `xurl` (Rust), covering the
credential store (`src/auth/token_store.rs`), the OAuth1 signer
(`src/auth/mod.rs`), the header resolution of the API client
(`src/api/client.rs`) and the redirect listener (`src/auth/listener.rs`).

Machine integers are modelled as `Nat` (the only arithmetic is the
`u64` unix-seconds comparison, which cannot overflow on realistic inputs and
is a plain `>` in the source). Strings are Lean `String`s; the OAuth1
percent-encoder works on the UTF-8 byte sequence of its input, mirroring
`percent_encoding::utf8_percent_encode`. Filesystem writes are modelled by a
`writeOk : Bool` oracle; network and randomness (nonce, timestamp, HMAC) are
explicit parameters.
-/

set_option autoImplicit false

namespace Xurl

/-- `OAuth1Token` from `token_store.rs`. -/
structure OAuth1Token where
  access_token : String
  token_secret : String
  consumer_key : String
  consumer_secret : String
deriving DecidableEq, Repr

/-- `OAuth2Token` from `token_store.rs`; `expiration_time` is `u64` unix seconds. -/
structure OAuth2Token where
  access_token : String
  refresh_token : String
  expiration_time : Nat
deriving DecidableEq, Repr

/-- The `Token` enum from `token_store.rs` (serde-renamed variants
`bearer` / `oauth2` / `oauth1`). -/
inductive Token where
  | bearer (tok : String)
  | oauth2 (tok : OAuth2Token)
  | oauth1 (tok : OAuth1Token)
deriving DecidableEq, Repr

/-- `TokenStoreError` from `token_store.rs`. -/
inductive TokenStoreError where
  | JSONSerializationError
  | JSONDeserializationError
  | IOError
  | RefreshTokenNotFound
deriving DecidableEq, Repr

/-- The `TokenStore` struct from `token_store.rs`. The Rust
`HashMap<String, Token>` is modelled as an association list (iteration order
of the hash map is unspecified; the list order stands for it). `file_path` is
part of the struct and hence of its serde serialization. -/
structure TokenStore where
  oauth2_tokens : List (String × Token)
  oauth1_tokens : Option Token
  bearer_token : Option Token
  file_path : String
deriving DecidableEq, Repr

/-- `HashMap::insert`: replace the value at an existing key, else append. -/
def insertToken (u : String) (t : Token) : List (String × Token) → List (String × Token)
  | [] => [(u, t)]
  | (k, v) :: rest => if k = u then (k, t) :: rest else (k, v) :: insertToken u t rest

/-- `HashMap::get(username).cloned()` — `TokenStore::get_oauth2_token`. -/
def lookupToken (u : String) : List (String × Token) → Option Token
  | [] => none
  | (k, v) :: rest => if k = u then some v else lookupToken u rest

def TokenStore.get_oauth2_token (s : TokenStore) (username : String) : Option Token :=
  lookupToken username s.oauth2_tokens

/-- `TokenStore::get_first_oauth2_token`: `values().next()`. -/
def TokenStore.get_first_oauth2_token (s : TokenStore) : Option Token :=
  s.oauth2_tokens.head?.map (·.2)

def TokenStore.get_oauth1_tokens (s : TokenStore) : Option Token :=
  s.oauth1_tokens

def TokenStore.get_bearer_token (s : TokenStore) : Option Token :=
  s.bearer_token

/-- `TokenStore::save_to_file`: serialize (never fails for this data) and
write the whole file; a failed write is `Err(TokenStoreError::IOError)`. The
filesystem outcome is the `writeOk` oracle. -/
def TokenStore.save_to_file (writeOk : Bool) : Except TokenStoreError Unit :=
  if writeOk then .ok () else .error .IOError

/-- `TokenStore::save_bearer_token`: set the slot, then flush. Returns the
post-mutation in-memory store together with the flush outcome. -/
def TokenStore.save_bearer_token (s : TokenStore) (token : String) (writeOk : Bool) :
    TokenStore × Except TokenStoreError Unit :=
  ({ s with bearer_token := some (.bearer token) }, TokenStore.save_to_file writeOk)

/-- `TokenStore::save_oauth2_token`. -/
def TokenStore.save_oauth2_token (s : TokenStore) (username token refresh_token : String)
    (expiration_time : Nat) (writeOk : Bool) : TokenStore × Except TokenStoreError Unit :=
  ({ s with
      oauth2_tokens :=
        insertToken username
          (.oauth2 ⟨token, refresh_token, expiration_time⟩) s.oauth2_tokens },
    TokenStore.save_to_file writeOk)

/-- `TokenStore::save_oauth1_tokens`. -/
def TokenStore.save_oauth1_tokens (s : TokenStore)
    (access_token token_secret consumer_key consumer_secret : String) (writeOk : Bool) :
    TokenStore × Except TokenStoreError Unit :=
  ({ s with
      oauth1_tokens :=
        some (.oauth1 ⟨access_token, token_secret, consumer_key, consumer_secret⟩) },
    TokenStore.save_to_file writeOk)

/-! ### JSON model of the serde serialization of `TokenStore`

`serde_json::to_string` / `from_str` are modelled at the JSON-tree level:
only the fragment of JSON this struct uses (null, string, number, object).
Serde derive semantics for the source types: struct fields in declaration
order, `Option` as `null` / value (a missing `Option` field deserializes to
`None`), enums externally tagged (a one-entry object keyed by the variant
name), `HashMap` as an object, `PathBuf` as a string. Unknown fields are
ignored on deserialization; non-`Option` fields are required. -/

inductive Json where
  | null
  | str (s : String)
  | num (n : Nat)
  | obj (fields : List (String × Json))

def getFieldList (key : String) : List (String × Json) → Option Json
  | [] => none
  | (k, v) :: rest => if k = key then some v else getFieldList key rest

def Json.getField : Json → String → Option Json
  | .obj fields, key => getFieldList key fields
  | _, _ => none

def Json.asStr : Json → Option String
  | .str s => some s
  | _ => none

def Json.asNat : Json → Option Nat
  | .num n => some n
  | _ => none

def OAuth1Token.toJson (t : OAuth1Token) : Json :=
  .obj [("access_token", .str t.access_token), ("token_secret", .str t.token_secret),
        ("consumer_key", .str t.consumer_key), ("consumer_secret", .str t.consumer_secret)]

def OAuth2Token.toJson (t : OAuth2Token) : Json :=
  .obj [("access_token", .str t.access_token), ("refresh_token", .str t.refresh_token),
        ("expiration_time", .num t.expiration_time)]

def Token.toJson : Token → Json
  | .bearer s => .obj [("bearer", .str s)]
  | .oauth2 t => .obj [("oauth2", t.toJson)]
  | .oauth1 t => .obj [("oauth1", t.toJson)]

def optTokenToJson : Option Token → Json
  | none => .null
  | some t => t.toJson

/-- serde serialization of the whole `TokenStore` struct: note that the
`file_path` field is serialized along with the three credential fields. -/
def TokenStore.toJson (s : TokenStore) : Json :=
  .obj [("oauth2_tokens", .obj (s.oauth2_tokens.map fun p => (p.1, p.2.toJson))),
        ("oauth1_tokens", optTokenToJson s.oauth1_tokens),
        ("bearer_token", optTokenToJson s.bearer_token),
        ("file_path", .str s.file_path)]

def OAuth1Token.fromJson (j : Json) : Option OAuth1Token := do
  let a ← (← j.getField "access_token").asStr
  let ts ← (← j.getField "token_secret").asStr
  let ck ← (← j.getField "consumer_key").asStr
  let cs ← (← j.getField "consumer_secret").asStr
  pure ⟨a, ts, ck, cs⟩

def OAuth2Token.fromJson (j : Json) : Option OAuth2Token := do
  let a ← (← j.getField "access_token").asStr
  let r ← (← j.getField "refresh_token").asStr
  let e ← (← j.getField "expiration_time").asNat
  pure ⟨a, r, e⟩

/-- Externally tagged enum: a one-entry object keyed by the variant name. -/
def Token.fromJson : Json → Option Token
  | .obj [("bearer", v)] => v.asStr.map .bearer
  | .obj [("oauth2", v)] => (OAuth2Token.fromJson v).map .oauth2
  | .obj [("oauth1", v)] => (OAuth1Token.fromJson v).map .oauth1
  | _ => none

/-- An `Option Token` field: missing or `null` is `None`; anything else must
parse as a `Token`. -/
def optTokenFromField : Option Json → Option (Option Token)
  | none => some none
  | some .null => some none
  | some j => (Token.fromJson j).map some

def tokensFromJson : List (String × Json) → Option (List (String × Token))
  | [] => some []
  | (k, v) :: rest => do
    let t ← Token.fromJson v
    let ts ← tokensFromJson rest
    pure ((k, t) :: ts)

def TokenStore.fromJson (j : Json) : Option TokenStore := do
  let o2 ← j.getField "oauth2_tokens"
  let entries ← match o2 with
    | .obj fs => tokensFromJson fs
    | _ => none
  let o1 ← optTokenFromField (j.getField "oauth1_tokens")
  let b ← optTokenFromField (j.getField "bearer_token")
  let fp ← (← j.getField "file_path").asStr
  pure ⟨entries, o1, b, fp⟩

/-- The store `from_file_path` builds when the file is absent or its content
does not deserialize. -/
def emptyStore (path : String) : TokenStore :=
  ⟨[], none, none, path⟩

/-- `TokenStore::from_file_path`. The file system is abstracted as
`Option (Option Json)`: `none` = file does not exist; `some none` = content
unreadable or not valid JSON text (`read_to_string(..).unwrap_or_default()`
followed by a failing parse); `some (some j)` = content parses as the JSON
tree `j`, which serde then matches against the struct. -/
def TokenStore.from_file_path (path : String) : Option (Option Json) → TokenStore
  | some (some j) =>
    match TokenStore.fromJson j with
    | some s => s
    | none => emptyStore path
  | some none => emptyStore path
  | none => emptyStore path

/-! ### OAuth1 signer (`src/auth/mod.rs`)

`encode` is `utf8_percent_encode(value, NON_ALPHANUMERIC)`: every byte of the
UTF-8 encoding that is not an ASCII alphanumeric is written `%XX` with
uppercase hex digits. The HMAC-SHA1 primitive (external `hmac`/`sha1`
crates) is an explicit function parameter; Base64 (external `base64` crate,
`STANDARD` alphabet with padding) is implemented. -/

/-- UTF-8 bytes of one code point. -/
def utf8Char (c : Nat) : List Nat :=
  if c < 128 then [c]
  else if c < 2048 then [192 + c / 64, 128 + c % 64]
  else if c < 65536 then [224 + c / 4096, 128 + (c / 64) % 64, 128 + c % 64]
  else [240 + c / 262144, 128 + (c / 4096) % 64, 128 + (c / 64) % 64, 128 + c % 64]

def utf8Aux : List Char → List Nat
  | [] => []
  | c :: cs => utf8Char c.toNat ++ utf8Aux cs

/-- UTF-8 byte sequence of a string. -/
def utf8 (s : String) : List Nat :=
  utf8Aux s.data

/-- ASCII alphanumeric byte: `0-9`, `A-Z`, `a-z`. -/
def isAlnumByte (b : Nat) : Bool :=
  decide (48 ≤ b ∧ b ≤ 57) || decide (65 ≤ b ∧ b ≤ 90) || decide (97 ≤ b ∧ b ≤ 122)

/-- Uppercase hex digit (as an ASCII code). -/
def hexDigit (n : Nat) : Nat :=
  if n < 10 then 48 + n else 55 + n

/-- `%XX` escape of one byte (ASCII codes: 37 is the percent sign). -/
def pctEncodeByte (b : Nat) : List Nat :=
  [37, hexDigit (b / 16), hexDigit (b % 16)]

/-- Byte-level `utf8_percent_encode(_, NON_ALPHANUMERIC)`: every byte that is
not an ASCII alphanumeric is `%XX`-escaped — including `-`, `.`, `_`, `~`. -/
def oauthEncodeBytes : List Nat → List Nat
  | [] => []
  | b :: bs => (if isAlnumByte b then [b] else pctEncodeByte b) ++ oauthEncodeBytes bs

def stringOfBytes (bs : List Nat) : String :=
  ⟨bs.map Char.ofNat⟩

/-- The `encode` helper of `src/auth/mod.rs`. -/
def encode (value : String) : String :=
  stringOfBytes (oauthEncodeBytes (utf8 value))

/-- The `parameter_string` of `generate_signature`: the (key-ordered) map
rendered as `k=v` pairs, keys and values encoded, joined by `&`. -/
def parameterString (params : List (String × String)) : String :=
  String.intercalate "&" (params.map fun p => encode p.1 ++ "=" ++ encode p.2)

/-- The `base_string` of `generate_signature`. The method is encoded as
given — the source never uppercases it. -/
def signatureBaseString (method url : String) (params : List (String × String)) : String :=
  encode method ++ "&" ++ encode url ++ "&" ++ encode (parameterString params)

/-- The `signing_key` of `generate_signature`. -/
def signingKey (consumer_secret token_secret : String) : String :=
  encode consumer_secret ++ "&" ++ encode token_secret

/-- Base64 character of a 6-bit value, `STANDARD` alphabet (ASCII code). -/
def base64Char (n : Nat) : Nat :=
  if n < 26 then 65 + n
  else if n < 52 then 71 + n
  else if n < 62 then n - 4
  else if n = 62 then 43
  else 47

/-- `STANDARD` Base64 with `=` padding (ASCII code 61), three bytes at a time. -/
def base64Bytes : List Nat → List Nat
  | [] => []
  | [a] => [base64Char (a / 4), base64Char (a % 4 * 16), 61, 61]
  | [a, b] => [base64Char (a / 4), base64Char (a % 4 * 16 + b / 16), base64Char (b % 16 * 4), 61]
  | a :: b :: c :: rest =>
    [base64Char (a / 4), base64Char (a % 4 * 16 + b / 16),
     base64Char (b % 16 * 4 + c / 64), base64Char (c % 64)] ++ base64Bytes rest

def base64Encode (bs : List Nat) : String :=
  stringOfBytes (base64Bytes bs)

/-- `generate_signature`: Base64(HMAC-SHA1(signing key, base string)). The
HMAC primitive is an explicit parameter (external crate); `new_from_slice`
cannot fail for HMAC, so the function is total. -/
def generate_signature (method url : String) (params : List (String × String))
    (consumer_secret token_secret : String)
    (hmacSha1 : List Nat → List Nat → List Nat) : String :=
  base64Encode
    (hmacSha1 (utf8 (signingKey consumer_secret token_secret))
      (utf8 (signatureBaseString method url params)))

/-- `BTreeMap::insert` on a key-sorted association list: replaces the value
at an existing key, otherwise inserts in key order. -/
def insertSorted (k v : String) : List (String × String) → List (String × String)
  | [] => [(k, v)]
  | (k', v') :: rest =>
    if k < k' then (k, v) :: (k', v') :: rest
    else if k = k' then (k, v) :: rest
    else (k', v') :: insertSorted k v rest

/-- The `params` BTreeMap built by `Auth::oauth1` before signing, inserted in
source order. -/
def oauth1SigningParams (t : OAuth1Token) (nonce timestamp : String) :
    List (String × String) :=
  insertSorted "oauth_version" "1.0"
    (insertSorted "oauth_token" t.access_token
      (insertSorted "oauth_timestamp" timestamp
        (insertSorted "oauth_signature_method" "HMAC-SHA1"
          (insertSorted "oauth_nonce" nonce
            (insertSorted "oauth_consumer_key" t.consumer_key [])))))

/-- `k.starts_with("oauth_")`. -/
def strStarts (pre s : String) : Bool :=
  pre.data.isPrefixOf s.data

/-- The comma-joined `key="value"` parameter list of the OAuth1 header,
keys filtered to the `oauth_` ones. -/
def oauth1HeaderBody (t : OAuth1Token) (method url : String)
    (additional_params : Option (List (String × String))) (nonce timestamp : String)
    (hmacSha1 : List Nat → List Nat → List Nat) : String :=
  let params :=
    match additional_params with
    | some ap => ap.foldl (fun m p => insertSorted p.1 p.2 m) (oauth1SigningParams t nonce timestamp)
    | none => oauth1SigningParams t nonce timestamp
  let signature := generate_signature method url params t.consumer_secret t.token_secret hmacSha1
  let withSig := insertSorted "oauth_signature" signature params
  String.intercalate ", "
    ((withSig.filter fun p => strStarts "oauth_" p.1).map
      fun p => encode p.1 ++ "=\"" ++ encode p.2 ++ "\"")

/-- The `AuthError` enum of `src/auth/mod.rs`. -/
inductive AuthError where
  | missingEnvVar (v : String)
  | invalidUrl (s : String)
  | invalidCode (s : String)
  | invalidToken (s : String)
  | authorizationError (s : String)
  | networkError (s : String)
  | ioError (s : String)
  | tokenNotFound (s : String)
  | invalidAuthType (s : String)
  | wrongTokenFoundInStore
  | tokenStoreError (e : TokenStoreError)
deriving DecidableEq, Repr

/-- `Auth::oauth1`: fetch the stored OAuth1 credential set, build the signing
parameters, sign, and assemble the `OAuth ...` header. Nonce and timestamp
(random / clock in the source) are explicit arguments. -/
def Auth.oauth1 (store : TokenStore) (method url : String)
    (additional_params : Option (List (String × String))) (nonce timestamp : String)
    (hmacSha1 : List Nat → List Nat → List Nat) : Except AuthError String :=
  match store.get_oauth1_tokens with
  | none => .error (.tokenNotFound "No OAuth1 tokens found")
  | some (.oauth1 t) =>
    .ok ("OAuth " ++ oauth1HeaderBody t method url additional_params nonce timestamp hmacSha1)
  | some _ => .error (.invalidToken "Invalid token type")

/-- `Auth::bearer_token`: the bearer slot, if it holds a `Token::Bearer`. -/
def Auth.bearer_token (store : TokenStore) : Option String :=
  store.get_bearer_token.bind fun t =>
    match t with
    | .bearer s => some s
    | _ => none

/-! ### OAuth2 lookup and the client decision procedure

`Auth::oauth2` performs network I/O on its refresh and interactive paths;
the embedding stops at the decision: the outcome records whether the stored
token was returned, the refresh path was triggered, or the interactive
PKCE flow was launched. -/

/-- The relevant configuration fields of `Auth`. -/
structure AuthConfig where
  client_id : String
  client_secret : String
deriving DecidableEq, Repr

/-- Outcome of `Auth::oauth2` up to the first network interaction. -/
inductive Oauth2Outcome where
  | token (t : String)
  | refresh (username : Option String)
  | interactive
  | err (e : AuthError)
deriving DecidableEq, Repr

/-- `Auth::oauth2` (`src/auth/mod.rs`, lines 137–202): with a username, a
stored entry is returned as-is unless `now > expiration_time`, in which case
the refresh path is taken; with no username, the interactive PKCE flow is
launched (after the client-credential check). `now` is
`SystemTime::now()` in unix seconds. -/
def Auth.oauth2 (cfg : AuthConfig) (store : TokenStore) (username : Option String)
    (now : Nat) : Oauth2Outcome :=
  match username with
  | some u =>
    match store.get_oauth2_token u with
    | some (.oauth2 t) =>
      if now > t.expiration_time then .refresh (some u) else .token t.access_token
    | some _ => .err .wrongTokenFoundInStore
    | none => .err (.tokenNotFound ("No cached OAuth2 token found for " ++ u))
  | none =>
    if cfg.client_id.isEmpty || cfg.client_secret.isEmpty then
      .err (.missingEnvVar "CLIENT_ID or CLIENT_SECRET")
    else
      .interactive

/-- The client `Error` enum (`src/error.rs`, plus the `AuthError` variant
used by `src/api/client.rs`). Variants not reachable in this embedding carry
their message strings. -/
inductive Error where
  | missingEnvVar (v : String)
  | httpError (s : String)
  | ioError (s : String)
  | invalidMethod (s : String)
  | apiError (j : Json)
  | jsonError (s : String)
  | authError (e : AuthError)

/-- Outcome of the client's header resolution: a resolved header string, the
refresh network path (whose result is `Bearer <refreshed token>`), the
interactive OAuth2 flow, or an error. -/
inductive HeaderOutcome where
  | header (s : String)
  | refreshHeader (username : Option String)
  | interactiveFlow
  | err (e : Error)

/-- Modelled from the spec: `Auth::first_oauth2_token`, called by
`src/api/client.rs` but absent from the sources under `src/` — per the spec
(§4.5 "use the first stored identity's token") it returns the store's first
OAuth2 entry, `TokenStore::get_first_oauth2_token`. -/
def Auth.first_oauth2_token (store : TokenStore) : Option Token :=
  store.get_first_oauth2_token

/-- Modelled from the spec: the `format!("Bearer {}", token)` rendering of a
stored first entry in `src/api/client.rs` — the displayed token is the
entry's access token (§4.5: every successful oauth2 resolution returns
`Bearer <token>`). -/
def bearerOfStored (t : OAuth2Token) : String :=
  "Bearer " ++ t.access_token

def liftOauth2 : Oauth2Outcome → HeaderOutcome
  | .token t => .header ("Bearer " ++ t)
  | .refresh u => .refreshHeader u
  | .interactive => .interactiveFlow
  | .err e => .err (.authError e)

/-- `ApiClient::get_oauth2_token` (`src/api/client.rs`, lines 36–58): with a
username, delegate to `Auth::oauth2`; without one, use the first stored
OAuth2 entry directly (no expiration check), falling back to
`Auth::oauth2(None)` — the interactive flow — only when no entry is stored. -/
def ApiClient.get_oauth2_token (cfg : AuthConfig) (store : TokenStore)
    (username : Option String) (now : Nat) : HeaderOutcome :=
  match username with
  | some u => liftOauth2 (Auth.oauth2 cfg store (some u) now)
  | none =>
    match Auth.first_oauth2_token store with
    | some (.oauth2 t) => .header (bearerOfStored t)
    | some _ => .err (.authError .wrongTokenFoundInStore)
    | none => liftOauth2 (Auth.oauth2 cfg store none now)

/-- `ApiClient::get_auth_header` (`src/api/client.rs`, lines 60–118).
`hasAuth` is whether the client was built `with_auth`; with it absent the
header is the empty string. -/
def ApiClient.get_auth_header (hasAuth : Bool) (cfg : AuthConfig) (store : TokenStore)
    (method url : String) (auth_type username : Option String) (now : Nat)
    (nonce timestamp : String) (hmacSha1 : List Nat → List Nat → List Nat) :
    HeaderOutcome :=
  if !hasAuth then .header "" else
  match auth_type with
  | some "app" =>
    match Auth.bearer_token store with
    | some t => .header ("Bearer " ++ t)
    | none => .err (.authError .wrongTokenFoundInStore)
  | some "oauth2" => ApiClient.get_oauth2_token cfg store username now
  | some "oauth1" =>
    match Auth.oauth1 store method url none nonce timestamp hmacSha1 with
    | .ok h => .header h
    | .error e => .err (.authError e)
  | none =>
    match Auth.first_oauth2_token store with
    | some (.oauth2 t) => .header (bearerOfStored t)
    | some _ => .err (.authError .wrongTokenFoundInStore)
    | none =>
      match Auth.oauth1 store method url none nonce timestamp hmacSha1 with
      | .ok h => .header h
      | .error _ => liftOauth2 (Auth.oauth2 cfg store none now)
  | some other => .err (.authError (.invalidAuthType ("Invalid auth type: " ++ other)))

/-! ### Redirect listener (`src/auth/listener.rs`)

The handler closure holds `Arc<Mutex<Option<oneshot::Sender>>>`; the mutex
serializes the requests, so the listener's externally visible behaviour is a
fold over the request sequence. `delivered` is the value sent through the
single-fire channel (`None` while the sender is still available). -/

/-- `Query<HashMap<_,_>>` lookup of the `code` parameter. -/
def lookupParam (k : String) : List (String × String) → Option String
  | [] => none
  | (k', v) :: rest => if k' = k then some v else lookupParam k rest

/-- The fixed confirmation body of the callback route. -/
def confirmationBody : String :=
  "Authorization successful! You can close this window."

/-- One request against the `/callback` route: if it carries a `code`
parameter and the sender has not fired yet, the code is delivered; the
response body is always the fixed confirmation string. -/
def handleRequest (delivered : Option String) (params : List (String × String)) :
    Option String × String :=
  match lookupParam "code" params with
  | some c =>
    match delivered with
    | none => (some c, confirmationBody)
    | some d => (some d, confirmationBody)
  | none => (delivered, confirmationBody)

/-- The listener over a request sequence: final delivered code and the
response bodies, in order. -/
def runListener (delivered : Option String) :
    List (List (String × String)) → Option String × List String
  | [] => (delivered, [])
  | r :: rs =>
    let step := handleRequest delivered r
    let rest := runListener step.1 rs
    (rest.1, step.2 :: rest.2)

/-- What `listen_for_code` hands to the waiting flow engine. -/
def listenerDelivered (reqs : List (List (String × String))) : Option String :=
  (runListener none reqs).1

/-- The `code` parameter of the first request that carries one. -/
def firstCode (reqs : List (List (String × String))) : Option String :=
  (reqs.filterMap (lookupParam "code")).head?

/-! ### Spec-side transcription for the base-string claim

`specSignatureBaseString` transcribes the claim's words — `UPPERCASE(method)
& percent-encode(url) & percent-encode(ordered "k=v" pairs joined by "&")`
with the OAuth1 unreserved set (alphanumerics and `-._~` unescaped) — to be
compared against the source's `signatureBaseString`. -/

def upperAscii (s : String) : String :=
  ⟨s.data.map Char.toUpper⟩

/-- Unreserved byte per the claim: ASCII alphanumeric or `-`, `.`, `_`, `~`. -/
def isUnreservedByte (b : Nat) : Bool :=
  isAlnumByte b || decide (b = 45) || decide (b = 46) || decide (b = 95) || decide (b = 126)

def specPercentEncodeBytes : List Nat → List Nat
  | [] => []
  | b :: bs => (if isUnreservedByte b then [b] else pctEncodeByte b) ++ specPercentEncodeBytes bs

def specEncode (s : String) : String :=
  stringOfBytes (specPercentEncodeBytes (utf8 s))

def specSignatureBaseString (method url : String) (params : List (String × String)) : String :=
  upperAscii method ++ "&" ++ specEncode url ++ "&"
    ++ specEncode (String.intercalate "&" (params.map fun p => specEncode p.1 ++ "=" ++ specEncode p.2))

/-! ### Shared concrete instances and helper lemmas -/

def cfg0 : AuthConfig := ⟨"cid", "csec"⟩

def hmac0 : List Nat → List Nat → List Nat := fun _ _ => []

def storeExpAtNow : TokenStore :=
  ⟨[("alice", .oauth2 ⟨"tokA", "rtA", 100⟩)], none, none, "/p"⟩

def storeExpired : TokenStore :=
  ⟨[("alice", .oauth2 ⟨"oldTok", "rt", 50⟩)], none, none, "/p"⟩

def storeOauth1Only : TokenStore :=
  ⟨[], some (.oauth1 ⟨"at", "ts", "ck", "cs"⟩), none, "/p"⟩

def storeBearerOnly : TokenStore :=
  ⟨[], none, some (.bearer "abc"), "/home/u/.xurl"⟩

def storeTwoSlots : TokenStore :=
  ⟨[("bob", .oauth2 ⟨"tb", "rb", 7⟩)], some (.oauth1 ⟨"a", "b", "c", "d"⟩),
    some (.bearer "x"), "/p"⟩

/-- A credential file of exactly the shape the spec describes: a plain-string
`bearer_token` and no enum tags or `file_path`. -/
def specShapedFile : Json :=
  .obj [("oauth2_tokens", .obj []), ("bearer_token", .str "abc")]

theorem Token.fromJson_toJson (t : Token) : Token.fromJson (Token.toJson t) = some t := by
  cases t <;> rfl

theorem optTokenFromField_toJson (o : Option Token) :
    optTokenFromField (some (optTokenToJson o)) = some o := by
  cases o with
  | none => rfl
  | some t => cases t <;> rfl

theorem tokensFromJson_map (l : List (String × Token)) :
    tokensFromJson (l.map fun p => (p.1, p.2.toJson)) = some l := by
  induction l with
  | nil => rfl
  | cons p rest ih => simp [tokensFromJson, Token.fromJson_toJson, ih]

theorem handleRequest_some (d : String) (r : List (String × String)) :
    handleRequest (some d) r = (some d, confirmationBody) := by
  cases h : lookupParam "code" r <;> simp [handleRequest, h]

theorem runListener_some (d : String) (rs : List (List (String × String))) :
    runListener (some d) rs = (some d, rs.map fun _ => confirmationBody) := by
  induction rs with
  | nil => rfl
  | cons r rest ih => simp [runListener, handleRequest_some, ih]

theorem lookupToken_insertToken_self (u : String) (t : Token) (l : List (String × Token)) :
    lookupToken u (insertToken u t l) = some t := by
  induction l with
  | nil => simp [insertToken, lookupToken]
  | cons p rest ih =>
    obtain ⟨k, v⟩ := p
    by_cases h : k = u
    · simp [insertToken, lookupToken, h]
    · simp [insertToken, lookupToken, h, ih]

theorem lookupToken_insertToken_ne (u v : String) (t : Token) (l : List (String × Token))
    (h : v ≠ u) : lookupToken v (insertToken u t l) = lookupToken v l := by
  have h' : u ≠ v := Ne.symm h
  induction l with
  | nil => simp [insertToken, lookupToken, h']
  | cons p rest ih =>
    obtain ⟨k, w⟩ := p
    by_cases hk : k = u
    · subst hk
      simp [insertToken, lookupToken, h']
    · simp [insertToken, lookupToken, hk, ih]

/-! ### Claim C1 — OAuth1 signature base string -/

/-- Claim C1, as stated, is false: at method `"get"`,
url `"https://a.b/x"` and the singleton ordered map `k ↦ v`, the source's
base string (`get&https%3A%2F%2Fa%2Eb%2Fx&k%3Dv`) differs from the claimed
`UPPERCASE(method) & pe(url) & pe(pairs)` with the unreserved set
(`GET&https%3A%2F%2Fa.b%2Fx&k%3Dv`): the method is not uppercased and the
dot is escaped. -/
theorem base_string_spec_counterexample :
    signatureBaseString "get" "https://a.b/x" [("k", "v")]
      ≠ specSignatureBaseString "get" "https://a.b/x" [("k", "v")] := by decide

/-- Claim C1 amended: the base string is
`pe(method) & pe(url) & pe(ordered encoded "k=v" pairs joined by "&")`, where
the method is used as given (never uppercased) and `pe` percent-escapes,
with uppercase hex, every byte that is not an ASCII alphanumeric — in
particular `-`, `.`, `_`, `~` are escaped. -/
theorem base_string_amended (method url : String) (params : List (String × String)) :
    signatureBaseString method url params
      = encode method ++ "&" ++ encode url ++ "&"
        ++ encode (String.intercalate "&" (params.map fun p => encode p.1 ++ "=" ++ encode p.2))
    ∧ encode "-._~" = "%2D%2E%5F%7E" ∧ encode "get" = "get" :=
  ⟨rfl, by decide, by decide⟩

/-! ### Claim C2 — explicit `app` scheme with no bearer token -/

/-- Claim C2: with auth configured, an empty store and explicit scheme
`app`, the code fails with `WrongTokenFoundInStore` — neither the
`TokenNotFound` the claim states nor `InvalidAuthType`. The claim is the
intent (the chosen variant's own message, "Non-OAuth2 tokens found when
looking for OAuth2 token", does not describe this situation, and sibling
paths use `TokenNotFound` for an absent credential); the code is the slip. -/
theorem app_scheme_no_bearer_wrong_token_eval :
    ApiClient.get_auth_header true cfg0 (emptyStore "/p") "GET" "https://api.x.com/2/users/me"
      (some "app") none 0 "n" "1" hmac0 = .err (.authError .wrongTokenFoundInStore) := rfl

/-! ### Claim C3 — expiration boundary -/

/-- Claim C3, as stated, is false: an entry whose `expiration_time` equals
`now` (both 100) is NOT treated as expired — the stored access token is
returned unchanged and the refresh path is not triggered. -/
theorem expiration_at_now_not_refreshed :
    Auth.oauth2 cfg0 storeExpAtNow (some "alice") 100 = .token "tokA"
    ∧ Auth.oauth2 cfg0 storeExpAtNow (some "alice") 100 ≠ .refresh (some "alice") := by
  decide

/-- Claim C3 amended: a stored OAuth2 entry is treated as expired (refresh
triggered) exactly when `expiration_time < now`; with
`expiration_time = now` — and a fortiori `now + 1` — the stored access token
is returned unchanged. -/
theorem expiration_boundary_amended (cfg : AuthConfig) (store : TokenStore) (u : String)
    (t : OAuth2Token) (now : Nat) (h : store.get_oauth2_token u = some (.oauth2 t)) :
    (Auth.oauth2 cfg store (some u) now = .refresh (some u) ↔ t.expiration_time < now)
    ∧ (now ≤ t.expiration_time → Auth.oauth2 cfg store (some u) now = .token t.access_token) := by
  constructor
  · by_cases hlt : t.expiration_time < now
    · simp [Auth.oauth2, h, hlt]
    · simp [Auth.oauth2, h, hlt]
  · intro hle
    simp [Auth.oauth2, h, Nat.not_lt.mpr hle]

theorem expiration_boundary_amended_witness :
    Auth.oauth2 cfg0 storeExpAtNow (some "alice") 100 = .token "tokA" :=
  (expiration_boundary_amended cfg0 storeExpAtNow "alice" ⟨"tokA", "rtA", 100⟩ 100 rfl).2
    (by decide)

/-! ### Claim C4 — explicit `oauth2` scheme with no username -/

/-- Claim C4, as stated, is false: with one stored entry that is already
expired (`expiration_time` 50, `now` 100), resolving with explicit scheme
`oauth2` and no username returns the stale stored access token directly —
the refresh path is never taken. -/
theorem first_identity_expired_not_refreshed :
    ApiClient.get_oauth2_token cfg0 storeExpired none 100 = .header "Bearer oldTok"
    ∧ ApiClient.get_oauth2_token cfg0 storeExpired none 100 ≠ .refreshHeader none
    ∧ (50 : Nat) < 100 := by
  refine ⟨rfl, ?_, by norm_num⟩
  intro h
  rw [show ApiClient.get_oauth2_token cfg0 storeExpired none 100 = .header "Bearer oldTok"
    from rfl] at h
  exact HeaderOutcome.noConfusion h

/-- Claim C4 amended: with explicit scheme `oauth2` and no username, the
first stored identity's access token is used as-is, with no expiration check
and no refresh; the full interactive flow runs only when no OAuth2 entry is
stored at all (and the client credentials are configured). -/
theorem first_identity_used_as_is_amended (cfg : AuthConfig) (store : TokenStore) (now : Nat) :
    (∀ u t rest, store.oauth2_tokens = (u, Token.oauth2 t) :: rest →
      ApiClient.get_oauth2_token cfg store none now = .header ("Bearer " ++ t.access_token))
    ∧ (store.oauth2_tokens = [] → cfg.client_id.isEmpty = false →
        cfg.client_secret.isEmpty = false →
        ApiClient.get_oauth2_token cfg store none now = .interactiveFlow) := by
  constructor
  · intro u t rest h
    simp [ApiClient.get_oauth2_token, Auth.first_oauth2_token, TokenStore.get_first_oauth2_token,
      h, bearerOfStored]
  · intro h h1 h2
    simp [ApiClient.get_oauth2_token, Auth.first_oauth2_token, TokenStore.get_first_oauth2_token,
      h, liftOauth2, Auth.oauth2, h1, h2]

theorem first_identity_used_as_is_witness :
    ApiClient.get_oauth2_token cfg0 storeExpired none 100 = .header ("Bearer " ++ "oldTok")
    ∧ ApiClient.get_oauth2_token cfg0 (emptyStore "/p") none 100 = .interactiveFlow :=
  ⟨(first_identity_used_as_is_amended cfg0 storeExpired 100).1 "alice" ⟨"oldTok", "rt", 50⟩ []
      rfl,
    (first_identity_used_as_is_amended cfg0 (emptyStore "/p") 100).2 rfl rfl rfl⟩

/-! ### Claim C5 — credential file shape -/

/-- Claim C5, as stated, is false: the flushed JSON of a store holding
bearer token `"abc"` has a `bearer_token` field that is the externally
tagged object `{"bearer": "abc"}`, not a plain string, plus an extra
`file_path` field; and a file of exactly the claimed shape does not
deserialize at all (so loading it degrades to the empty store instead of
yielding the credentials). -/
theorem store_json_shape_counterexample :
    (TokenStore.toJson storeBearerOnly).getField "bearer_token"
        = some (.obj [("bearer", .str "abc")])
    ∧ (TokenStore.toJson storeBearerOnly).getField "bearer_token" ≠ some (.str "abc")
    ∧ (TokenStore.toJson storeBearerOnly).getField "file_path"
        = some (.str "/home/u/.xurl")
    ∧ TokenStore.fromJson specShapedFile = none
    ∧ TokenStore.from_file_path "/home/u/.xurl" (some (some specShapedFile))
        = emptyStore "/home/u/.xurl" := by
  refine ⟨rfl, ?_, rfl, rfl, rfl⟩
  intro h
  rw [show (TokenStore.toJson storeBearerOnly).getField "bearer_token"
      = some (.obj [("bearer", .str "abc")]) from rfl] at h
  exact Json.noConfusion (Option.some.inj h)

/-- Claim C5 amended: every flush writes a JSON object with fields
`oauth2_tokens` (each username mapped to the externally tagged
`{"oauth2": {access_token, refresh_token, expiration_time}}`),
`oauth1_tokens` (`null` or `{"oauth1": {access_token, token_secret,
consumer_key, consumer_secret}}`), `bearer_token` (`null` or
`{"bearer": <string>}`) and additionally `file_path`; loading a file of
exactly that emitted shape yields a store holding the same credentials. -/
theorem store_json_roundtrip_amended (s : TokenStore) :
    TokenStore.fromJson (TokenStore.toJson s) = some s := by
  obtain ⟨o2, o1, b, fp⟩ := s
  rw [show TokenStore.fromJson (TokenStore.toJson ⟨o2, o1, b, fp⟩)
        = (tokensFromJson (o2.map fun p => (p.1, p.2.toJson))).bind (fun entries =>
            (optTokenFromField (some (optTokenToJson o1))).bind fun o1x =>
            (optTokenFromField (some (optTokenToJson b))).bind fun bx =>
            some ⟨entries, o1x, bx, fp⟩) from rfl]
  rw [tokensFromJson_map, optTokenFromField_toJson, optTokenFromField_toJson]
  rfl

/-! ### Claim C6 — auto mode with only OAuth1 credentials -/

/-- Claim C6: with an OAuth1 credential set stored and no OAuth2 entries,
auto-mode header resolution produces the signer's `OAuth ...` header and
never reaches the interactive flow. -/
theorem auto_mode_oauth1_only_signs (cfg : AuthConfig) (store : TokenStore)
    (method url : String) (now : Nat) (nonce timestamp : String)
    (hmacSha1 : List Nat → List Nat → List Nat) (c : OAuth1Token)
    (h1 : store.oauth1_tokens = some (.oauth1 c)) (h2 : store.oauth2_tokens = []) :
    ApiClient.get_auth_header true cfg store method url none none now nonce timestamp hmacSha1
      = .header ("OAuth " ++ oauth1HeaderBody c method url none nonce timestamp hmacSha1)
    ∧ ApiClient.get_auth_header true cfg store method url none none now nonce timestamp hmacSha1
      ≠ .interactiveFlow := by
  have hmain :
      ApiClient.get_auth_header true cfg store method url none none now nonce timestamp hmacSha1
        = .header ("OAuth " ++ oauth1HeaderBody c method url none nonce timestamp hmacSha1) := by
    simp [ApiClient.get_auth_header, Auth.first_oauth2_token, TokenStore.get_first_oauth2_token,
      h2, Auth.oauth1, TokenStore.get_oauth1_tokens, h1]
  refine ⟨hmain, ?_⟩
  rw [hmain]
  intro h
  exact HeaderOutcome.noConfusion h

theorem auto_mode_oauth1_only_signs_witness :
    ApiClient.get_auth_header true cfg0 storeOauth1Only "GET" "https://api.x.com/2/users/me"
        none none 0 "n0" "17" hmac0
      = .header ("OAuth " ++ oauth1HeaderBody ⟨"at", "ts", "ck", "cs"⟩ "GET"
          "https://api.x.com/2/users/me" none "n0" "17" hmac0) :=
  (auto_mode_oauth1_only_signs cfg0 storeOauth1Only "GET" "https://api.x.com/2/users/me" 0
    "n0" "17" hmac0 ⟨"at", "ts", "ck", "cs"⟩ rfl rfl).1

/-! ### Claim C7 — redirect listener single-fire delivery -/

/-- Claim C7: over any request sequence, the listener delivers exactly the
`code` value of the first request that carries one (nothing if none does),
so at most one code is ever delivered, and every request — with or without a
code, before or after the delivery — is answered with the fixed confirmation
body. -/
theorem listener_single_fire (reqs : List (List (String × String))) :
    listenerDelivered reqs = firstCode reqs
    ∧ (runListener none reqs).2 = reqs.map fun _ => confirmationBody := by
  induction reqs with
  | nil => exact ⟨rfl, rfl⟩
  | cons r rest ih =>
    cases h : lookupParam "code" r with
    | some c =>
      constructor
      · simp [listenerDelivered, runListener, handleRequest, h, runListener_some, firstCode]
      · simp [runListener, handleRequest, h, runListener_some]
    | none =>
      constructor
      · simpa [listenerDelivered, runListener, handleRequest, h, firstCode] using ih.1
      · simpa [runListener, handleRequest, h] using ih.2

/-! ### Claim C8 — failed flush surfaces IOError, mutation kept -/

/-- Claim C8: when the full-file rewrite fails, saving a bearer, OAuth2 or
OAuth1 credential returns `IOError` while the in-memory store already holds
the new value — the mutation is not rolled back. -/
theorem failed_flush_keeps_mutation (s : TokenStore) (tok username access refresh : String)
    (exp : Nat) (a b c d : String) :
    ((s.save_bearer_token tok false).1.bearer_token = some (.bearer tok)
      ∧ (s.save_bearer_token tok false).2 = .error .IOError)
    ∧ ((s.save_oauth2_token username access refresh exp false).1.get_oauth2_token username
          = some (.oauth2 ⟨access, refresh, exp⟩)
      ∧ (s.save_oauth2_token username access refresh exp false).2 = .error .IOError)
    ∧ ((s.save_oauth1_tokens a b c d false).1.oauth1_tokens = some (.oauth1 ⟨a, b, c, d⟩)
      ∧ (s.save_oauth1_tokens a b c d false).2 = .error .IOError) := by
  refine ⟨⟨rfl, rfl⟩, ⟨?_, rfl⟩, ⟨rfl, rfl⟩⟩
  simp [TokenStore.save_oauth2_token, TokenStore.get_oauth2_token, lookupToken_insertToken_self]

/-! ### Claim C9 — load degrades to the empty store -/

/-- Claim C9: loading the credential file is total; whenever the content is
missing, unreadable/non-JSON, or JSON that does not deserialize as a store,
the result is the empty store (no OAuth2 entries, no OAuth1 slot, no bearer
slot). -/
theorem load_degrades_to_empty_store (path : String) (j : Json)
    (h : TokenStore.fromJson j = none) :
    TokenStore.from_file_path path (some (some j)) = emptyStore path
    ∧ TokenStore.from_file_path path (some none) = emptyStore path
    ∧ TokenStore.from_file_path path none = emptyStore path := by
  refine ⟨?_, rfl, rfl⟩
  simp [TokenStore.from_file_path, h]

theorem load_degrades_to_empty_store_witness :
    TokenStore.from_file_path "/p" (some (some (Json.str "garbage"))) = emptyStore "/p"
    ∧ TokenStore.from_file_path "/p" (some none) = emptyStore "/p"
    ∧ TokenStore.from_file_path "/p" none = emptyStore "/p" :=
  load_degrades_to_empty_store "/p" (Json.str "garbage") rfl

/-! ### Claim C10 — frame of `save_oauth2_token` -/

/-- Claim C10: saving an OAuth2 token for `u` leaves the OAuth1 slot, the
bearer slot and every OAuth2 entry keyed by a different username unchanged in
the in-memory store, whatever the file-write outcome. -/
theorem save_oauth2_frame (s : TokenStore) (u tok rt : String) (exp : Nat) (writeOk : Bool)
    (v : String) (hne : v ≠ u) :
    ((s.save_oauth2_token u tok rt exp writeOk).1.oauth1_tokens = s.oauth1_tokens)
    ∧ ((s.save_oauth2_token u tok rt exp writeOk).1.bearer_token = s.bearer_token)
    ∧ ((s.save_oauth2_token u tok rt exp writeOk).1.get_oauth2_token v
        = s.get_oauth2_token v) := by
  refine ⟨rfl, rfl, ?_⟩
  simp [TokenStore.save_oauth2_token, TokenStore.get_oauth2_token,
    lookupToken_insertToken_ne u v _ _ hne]

theorem save_oauth2_frame_witness :
    ((storeTwoSlots.save_oauth2_token "alice" "t" "r" 9 false).1.oauth1_tokens
        = storeTwoSlots.oauth1_tokens)
    ∧ ((storeTwoSlots.save_oauth2_token "alice" "t" "r" 9 false).1.bearer_token
        = storeTwoSlots.bearer_token)
    ∧ ((storeTwoSlots.save_oauth2_token "alice" "t" "r" 9 false).1.get_oauth2_token "bob"
        = storeTwoSlots.get_oauth2_token "bob") :=
  save_oauth2_frame storeTwoSlots "alice" "t" "r" 9 false "bob" (by decide)

end Xurl
